import Mathlib

/-!
# Shallow embedding of the `graphy` graph library

This file embeds the current iteration of the repository's graph core —
`src/graph.rs` together with the only edge implementation that matches the
current `EdgeTrait` declaration (`src/edge/directed_weighted.rs`) — and, for
the claims about the stale undirected variant, the clone-based
`src/edge/undirected_weighted.rs`.

Modelling conventions:
* `VertexId`/`EdgeId` are `usize` newtypes in the source (the session brand
  `'id` is a compile-time phantom); they are embedded as `Nat`.
* `hashbrown::HashMap` is embedded as an association list with unique keys;
  `insertA`/`lookupA`/`removeA`/`updateA`/`containsA` mirror
  `insert`/`get`/`remove`/in-place mutation/`contains_key`.
* `Shared<T>` heap allocations for edges are made explicit: the graph carries
  an `edgeHeap` mapping allocation addresses to edge payloads, and adjacency
  maps / the edge registry store addresses.  `Shared::clone` is address
  copying, `Shared::drop` removes the address from the heap, and two handles
  alias exactly when they hold the same address — mirroring
  `src/shared.rs` (`NonNull` pointer copy / `drop_in_place` / pointer
  equality).
* Vertex allocations are represented by their registry entry (every endpoint
  handle stored in a live edge refers to a registered vertex in states
  reachable through the API; the vertex currently being drained by
  `Graph::remove` is threaded separately, mirroring the source's use of the
  already-removed vertex's own handle).
* The `GhostToken` capability has no runtime content (`src/ghost.rs` is a
  phantom-tagged `UnsafeCell`); it is erased.
* The weight callback receives `&Node, &Node, &mut Graph, &mut GhostToken` in
  the source and is documented by the spec as an opaque observer of the
  endpoints' payloads; it is embedded as a pure function of the seed and the
  two endpoint items.  `create_or_update_edge_between` additionally reports
  how many times it invoked the callback (one per executed call site), so
  that single evaluation is a provable statement.
* Rust `usize` arithmetic that can underflow (`vertex_len -= 1` at the top of
  `Graph::remove`) is embedded with an explicit `panicked` outcome, matching
  the debug-build overflow check; `Option::unwrap` on `None` likewise.
-/

abbrev VertexId : Type := Nat

abbrev EdgeId : Type := Nat

/-- Association-list lookup, embedding `HashMap::get`. -/
def lookupA {α : Type} (k : Nat) : List (Nat × α) → Option α
  | [] => none
  | (k', v) :: rest => if k = k' then some v else lookupA k rest

/-- Association-list insert, embedding `HashMap::insert` (replaces the value
if the key is present, otherwise adds the binding). -/
def insertA {α : Type} (k : Nat) (v : α) : List (Nat × α) → List (Nat × α)
  | [] => [(k, v)]
  | (k', v') :: rest =>
      if k = k' then (k, v) :: rest else (k', v') :: insertA k v rest

/-- Association-list removal, embedding `HashMap::remove`. -/
def removeA {α : Type} (k : Nat) : List (Nat × α) → List (Nat × α)
  | [] => []
  | (k', v') :: rest =>
      if k = k' then rest else (k', v') :: removeA k rest

/-- In-place update of the value stored at a key, embedding mutation through
`get_mut`-style access to a map entry. -/
def updateA {α : Type} (k : Nat) (f : α → α) : List (Nat × α) → List (Nat × α)
  | [] => []
  | (k', v) :: rest =>
      if k = k' then (k', f v) :: rest else (k', v) :: updateA k f rest

/-- `HashMap::contains_key`. -/
def containsA {α : Type} (k : Nat) (l : List (Nat × α)) : Bool :=
  (lookupA k l).isSome

/-- A vertex (`src/vertex.rs`): id, payload item, and the adjacency map from
incident `EdgeId` to the `Shared` edge handle (embedded as the edge's heap
address). -/
structure Vertex (Item : Type) where
  id : VertexId
  item : Item
  edges : List (EdgeId × Nat)
deriving DecidableEq

/-- The payload of one heap-allocated edge, as built by
`DirectedWeightedEdge` (`src/edge/directed_weighted.rs`): a weight and the
two endpoint handles.  Endpoint handles are embedded by the endpoint vertex
ids (`other` in the source compares the borrowed `id()` of each endpoint). -/
structure EdgeAlloc (Weight : Type) where
  weight : Weight
  fst : VertexId
  snd : VertexId
deriving DecidableEq

/-- `GraphError` (`src/lib.rs`), extended with the `NoEdgeBetween` and
`AlreadyEdgeBetween` variants that `src/graph.rs` uses (the enum declared in
`src/lib.rs` predates them — the two files are different iterations).  The
`AddEdgeError` variant carries `Edge::Error`, which is `Infallible` for the
built-in edge variants, so it is uninhabited and omitted. -/
inductive GraphError where
  | EdgeNotFound (id : EdgeId)
  | VertexNotFound (id : VertexId)
  | IdenticalVertex (id : VertexId)
  | NoEdgeBetween
  | AlreadyEdgeBetween
deriving DecidableEq

/-- The outcome of an operation that, besides returning `Result`, can hit a
debug-build arithmetic overflow check or an `unwrap` (a Rust panic). -/
inductive Outcome (α : Type) where
  | ok (a : α)
  | err (e : GraphError)
  | panicked
deriving DecidableEq

/-- The graph (`src/graph.rs`): vertex registry, edge registry, id counters
and the two length counters, plus the explicit heap of live edge
allocations (`edgeHeap`, addressed by `nextAlloc`) standing for the
`Shared<Edge>` allocations the source reaches by pointer. -/
structure Graph (Item Weight : Type) where
  vertices : List (VertexId × Vertex Item)
  edges : List (EdgeId × Nat)
  edgeHeap : List (Nat × EdgeAlloc Weight)
  nextAlloc : Nat
  current_vertex_id : Nat
  current_edge_id : Nat
  vertex_len : Nat
  edge_len : Nat
deriving DecidableEq

/-- `Graph::new`. -/
def Graph.new {Item Weight : Type} : Graph Item Weight :=
  { vertices := [], edges := [], edgeHeap := [], nextAlloc := 0,
    current_vertex_id := 0, current_edge_id := 0,
    vertex_len := 0, edge_len := 0 }

/-- `Graph::add_vertex`: build the vertex with the current counter value,
take the id from `new_vertex_id` (same value, then increment), bump
`vertex_len`, insert into the registry. -/
def Graph.add_vertex {Item Weight : Type} (g : Graph Item Weight)
    (item : Item) : VertexId × Graph Item Weight :=
  let vertex : Vertex Item := { id := g.current_vertex_id, item := item, edges := [] }
  let id := g.current_vertex_id
  (id, { g with
          current_vertex_id := id + 1,
          vertex_len := g.vertex_len + 1,
          vertices := insertA id vertex g.vertices })

/-- `Graph::adjacent` (`src/graph.rs` lines 385-408): look up `id_one`
(`VertexNotFound(id_one)` if absent); if `id_two` is registered, scan
`id_one`'s adjacency keys for membership in `id_two`'s map and return
`Ok(true)` at the first hit.  Every remaining path — including the one where
both vertices exist but share no key — falls through to
`Err(VertexNotFound(id_two))`: the function has no `Ok(false)` exit. -/
def Graph.adjacent {Item Weight : Type} (g : Graph Item Weight)
    (id_one id_two : VertexId) : Except GraphError Bool :=
  match lookupA id_one g.vertices with
  | none => .error (.VertexNotFound id_one)
  | some vertex_one =>
      match lookupA id_two g.vertices with
      | some vertex_two =>
          if vertex_one.edges.any (fun p => containsA p.1 vertex_two.edges) then
            .ok true
          else
            .error (.VertexNotFound id_two)
      | none => .error (.VertexNotFound id_two)

/-- `DirectedWeightedEdge::add_edge` (`src/edge/directed_weighted.rs` lines
27-48): allocate one `Shared` edge, then insert the same allocation (handle
clones, i.e. the same address) into `first`'s adjacency map, `second`'s
adjacency map, and the graph's edge registry.  Returns
`Result<(), Infallible>`, i.e. it cannot fail, so the embedding returns the
updated graph directly. -/
def DirectedWeightedEdge.add_edge {Item Weight : Type} (weight : Weight)
    (firstId secondId : VertexId) (id : EdgeId) (g : Graph Item Weight) :
    Graph Item Weight :=
  let addr := g.nextAlloc
  { g with
    nextAlloc := addr + 1,
    edgeHeap := insertA addr { weight := weight, fst := firstId, snd := secondId } g.edgeHeap,
    vertices :=
      updateA secondId (fun v => { v with edges := insertA id addr v.edges })
        (updateA firstId (fun v => { v with edges := insertA id addr v.edges })
          g.vertices),
    edges := insertA id addr g.edges }

/-- `Graph::add_edge` (`src/graph.rs` lines 77-119).  `new_edge_id` runs
first, before any validation, so the edge-id counter advances on every call.
Then: `IdenticalVertex` if the ids coincide; otherwise the result of
`self.adjacent` is propagated with `?` (so any `Err` from `adjacent` becomes
this function's result), `Ok(true)` maps to `AlreadyEdgeBetween`, and only
`Ok(false)` — which `adjacent` never produces — reaches the construction
path: look up both vertices, evaluate the weight callback, call the edge
constructor, bump `edge_len`, return the id. -/
def Graph.add_edge {Item Weight T : Type} (g : Graph Item Weight)
    (id_one id_two : VertexId) (item : T)
    (weight : T → Item → Item → Weight) :
    Except GraphError EdgeId × Graph Item Weight :=
  let id := g.current_edge_id
  let g := { g with current_edge_id := id + 1 }
  if id_one = id_two then
    (.error (.IdenticalVertex id_one), g)
  else
    match g.adjacent id_one id_two with
    | .error e => (.error e, g)
    | .ok true => (.error .AlreadyEdgeBetween, g)
    | .ok false =>
        match lookupA id_one g.vertices with
        | none => (.error (.VertexNotFound id_one), g)
        | some first =>
            match lookupA id_two g.vertices with
            | none => (.error (.VertexNotFound id_two), g)
            | some second =>
                let w := weight item first.item second.item
                let g := DirectedWeightedEdge.add_edge w id_one id_two id g
                (.ok id, { g with edge_len := g.edge_len + 1 })

/-- `Graph::create_or_update_edge_between` (`src/graph.rs` lines 133-192).
`IdenticalVertex` first; look up both vertices (`VertexNotFound`); scan
`id_one`'s adjacency keys for one contained in `id_two`'s map; evaluate the
weight callback once (before branching); if a shared id was found, write the
weight through the allocation stored in `id_one`'s map at that id (the
source re-reads that entry and `unwrap_unchecked`s it — the scan already
produced the very same entry, so the embedding keeps the scanned pair) and
return the existing id; otherwise draw a fresh id, construct the edge, bump
`edge_len`.  The third component of the result counts the executed calls of
the weight callback (each executed call site contributes one). -/
def Graph.create_or_update_edge_between {Item Weight T : Type}
    (g : Graph Item Weight) (id_one id_two : VertexId) (item : T)
    (weight : T → Item → Item → Weight) :
    Except GraphError EdgeId × Graph Item Weight × Nat :=
  if id_one = id_two then
    (.error (.IdenticalVertex id_one), g, 0)
  else
    match lookupA id_one g.vertices with
    | none => (.error (.VertexNotFound id_one), g, 0)
    | some vertex_one =>
        match lookupA id_two g.vertices with
        | none => (.error (.VertexNotFound id_two), g, 0)
        | some vertex_two =>
            let scan := vertex_one.edges.find? (fun p => containsA p.1 vertex_two.edges)
            let w := weight item vertex_one.item vertex_two.item
            match scan with
            | some (id, addr) =>
                (.ok id,
                 { g with edgeHeap := updateA addr (fun e => { e with weight := w }) g.edgeHeap },
                 1)
            | none =>
                let id := g.current_edge_id
                let g := { g with current_edge_id := id + 1 }
                let g := DirectedWeightedEdge.add_edge w id_one id_two id g
                (.ok id, { g with edge_len := g.edge_len + 1 }, 1)

/-- `Graph::clear` (`src/graph.rs` lines 195-202): drain and drop every
vertex and edge allocation and reset all four counters to zero.  The heap is
emptied because every allocation is dropped; the address generator restarts
(freed addresses may be reused, which the embedding realises by resetting
`nextAlloc`). -/
def Graph.clear {Item Weight : Type} (_g : Graph Item Weight) : Graph Item Weight :=
  { vertices := [], edges := [], edgeHeap := [], nextAlloc := 0,
    current_vertex_id := 0, current_edge_id := 0,
    vertex_len := 0, edge_len := 0 }

/-- The edge-draining loop of `Graph::remove` (`src/graph.rs` lines
282-307), one step per snapshotted edge id.  For each id: remove it from the
drained vertex's own map (`unwrap_unchecked` — the keys came from that map,
so the entry is present whenever the loop is entered as the source enters
it; a missing entry is embedded as `panicked`); dereference the edge handle
(`panicked` if the allocation is dead, which cannot happen here); resolve
`other` by comparing the two endpoint ids (`Err(VertexNotFound(id))` if
neither matches); remove the id from the other endpoint's map
(`Err(EdgeNotFound)` if absent — the endpoint handle not being backed by the
registry can only mean it is the vertex being drained, whose map no longer
holds the id, so that case is embedded as the same `EdgeNotFound`); remove
the id from the edge registry (`Err(EdgeNotFound)` if absent) and drop the
allocation.  Errors abort the loop, keeping the mutations already made.
`edge_len` is never touched. -/
def Graph.removeLoop {Item Weight : Type} (vid : VertexId) :
    List EdgeId → Vertex Item → Graph Item Weight →
    Outcome Unit × Graph Item Weight
  | [], _, g => (.ok (), g)
  | eId :: rest, toRemove, g =>
      match lookupA eId toRemove.edges with
      | none => (.panicked, g)
      | some addr =>
          let toRemove := { toRemove with edges := removeA eId toRemove.edges }
          match lookupA addr g.edgeHeap with
          | none => (.panicked, g)
          | some e =>
              match (if vid = e.fst then some e.snd
                     else if vid = e.snd then some e.fst else none) with
              | none => (.err (.VertexNotFound vid), g)
              | some otherId =>
                  match lookupA otherId g.vertices with
                  | none => (.err (.EdgeNotFound eId), g)
                  | some two =>
                      match lookupA eId two.edges with
                      | none => (.err (.EdgeNotFound eId), g)
                      | some _ =>
                          let g := { g with
                            vertices := updateA otherId
                              (fun v => { v with edges := removeA eId v.edges })
                              g.vertices }
                          match lookupA eId g.edges with
                          | none => (.err (.EdgeNotFound eId), g)
                          | some addr' =>
                              let g := { g with
                                edges := removeA eId g.edges,
                                edgeHeap := removeA addr' g.edgeHeap }
                              Graph.removeLoop vid rest toRemove g

/-- `Graph::remove` (`src/graph.rs` lines 266-312).  The very first
statement is `self.vertex_len -= 1`, before any validation: on a graph whose
`vertex_len` is zero this is a `usize` underflow (a panic under the
debug-build overflow check, embedded as `panicked`); otherwise the counter
is decremented even if the subsequent registry lookup fails with
`VertexNotFound`.  On the success path the vertex is removed from the
registry, its incident edge ids are snapshotted, and the drain loop runs
over them; `Vec::pop` processes the snapshot from its end, hence the
`reverse`.  Finally the vertex allocation is dropped (its registry entry is
already gone). -/
def Graph.remove {Item Weight : Type} (g : Graph Item Weight)
    (id : VertexId) : Outcome Unit × Graph Item Weight :=
  if g.vertex_len = 0 then (.panicked, g)
  else
    let g := { g with vertex_len := g.vertex_len - 1 }
    match lookupA id g.vertices with
    | none => (.err (.VertexNotFound id), g)
    | some toRemove =>
        let g := { g with vertices := removeA id g.vertices }
        Graph.removeLoop id (toRemove.edges.map Prod.fst).reverse toRemove g

/-- `Graph::remove_edge_between` (`src/graph.rs` lines 321-379): look up
both vertices (`VertexNotFound`); scan `id_one`'s adjacency keys for one
contained in `id_two`'s map (`NoEdgeBetween` if none); then re-fetch each
vertex (the source's `ok_or(VertexNotFound)?` — nothing has changed since
the scan, but the embedding mirrors the re-checks) and remove the found id
from both adjacency maps; finally `self.edges.remove(&e_id).unwrap()`
(embedded: `panicked` if the registry misses the id) and drop the
allocation.  `edge_len` is never decremented. -/
def Graph.remove_edge_between {Item Weight : Type} (g : Graph Item Weight)
    (id_one id_two : VertexId) : Outcome Unit × Graph Item Weight :=
  match lookupA id_one g.vertices with
  | none => (.err (.VertexNotFound id_one), g)
  | some vertex_one =>
      match lookupA id_two g.vertices with
      | none => (.err (.VertexNotFound id_two), g)
      | some vertex_two =>
          match vertex_one.edges.find? (fun p => containsA p.1 vertex_two.edges) with
          | none => (.err .NoEdgeBetween, g)
          | some (eId, _) =>
              match lookupA id_one g.vertices with
              | none => (.err (.VertexNotFound id_one), g)
              | some _ =>
                  let g := { g with
                    vertices := updateA id_one
                      (fun v => { v with edges := removeA eId v.edges }) g.vertices }
                  match lookupA id_two g.vertices with
                  | none => (.err (.VertexNotFound id_two), g)
                  | some _ =>
                      let g := { g with
                        vertices := updateA id_two
                          (fun v => { v with edges := removeA eId v.edges }) g.vertices }
                      match lookupA eId g.edges with
                      | none => (.panicked, g)
                      | some addr =>
                          (.ok (),
                           { g with
                             edges := removeA eId g.edges,
                             edgeHeap := removeA addr g.edgeHeap })

/-- Reading an edge weight the way the library's clients do: follow a
vertex's adjacency entry for an edge id to the allocation it references and
read the weight stored there. -/
def readWeightVia {Item Weight : Type} (g : Graph Item Weight)
    (vid : VertexId) (eId : EdgeId) : Option Weight :=
  match lookupA vid g.vertices with
  | none => none
  | some v =>
      match lookupA eId v.edges with
      | none => none
      | some addr =>
          match lookupA addr g.edgeHeap with
          | none => none
          | some e => some e.weight

/-! ## The stale undirected edge variant

`src/edge/undirected_weighted.rs` is an earlier iteration: its `add_edge`
lacks the `graph` parameter the `EdgeTrait` declaration in
`src/edge/mod.rs` requires (and the impl provides no
`get_weight`/`get_weight_mut`/`connects`), and it stores edge *values*
(`Weight: Clone`) inline in the adjacency maps instead of `Shared`
handles: the edge is built once and then `edge.clone()` goes into the
first endpoint's map while `edge` goes into the second's — two independent
copies of the weight. -/

/-- An `UnDirectedWeightedEdge` value (`src/edge/undirected_weighted.rs`):
weight plus the two endpoint handles (embedded by their vertex ids). -/
structure UWEdge (Weight : Type) where
  weight : Weight
  fst : VertexId
  snd : VertexId
deriving DecidableEq

/-- A vertex as the undirected iteration uses it: the adjacency map stores
`UnDirectedWeightedEdge` values inline (`HashMap<EdgeId, Edge>` in
`src/vertex.rs`). -/
structure UWVertex (Item Weight : Type) where
  id : VertexId
  item : Item
  edges : List (EdgeId × UWEdge Weight)
deriving DecidableEq

/-- `UnDirectedWeightedEdge::add_edge` (`src/edge/undirected_weighted.rs`
lines 26-39): build the edge value, insert `edge.clone()` into `first`'s
adjacency map and `edge` into `second`'s.  Cloning the edge clones the
weight (`Weight: Clone`), so the two maps end up with distinct copies, not
one shared allocation. -/
def UnDirectedWeightedEdge.add_edge {Item Weight : Type} (weight : Weight)
    (first second : UWVertex Item Weight) (id : EdgeId) :
    UWVertex Item Weight × UWVertex Item Weight :=
  let edge : UWEdge Weight := { weight := weight, fst := first.id, snd := second.id }
  ({ first with edges := insertA id edge first.edges },
   { second with edges := insertA id edge second.edges })

/-- `get_weight_mut` through one endpoint's adjacency entry: overwrite the
weight stored in this vertex's map at the given edge id. -/
def UWVertex.setWeightAt {Item Weight : Type} (v : UWVertex Item Weight)
    (eId : EdgeId) (w : Weight) : UWVertex Item Weight :=
  { v with edges := updateA eId (fun e => { e with weight := w }) v.edges }

/-- `get_weight` through one endpoint's adjacency entry. -/
def UWVertex.weightAt {Item Weight : Type} (v : UWVertex Item Weight)
    (eId : EdgeId) : Option Weight :=
  (lookupA eId v.edges).map (fun e => e.weight)

/-! ## Operation traces

A trace syntax for the mutating operations other than `clear`, used to
state the id-freshness invariant across arbitrary call sequences.  Applying
an operation yields the next graph state and the list of vertex ids the
operation issued (only `add_vertex` issues one). -/

/-- One mutating graph operation (clear excluded; the weight seed of the two
edge operations is carried in the trace, the weight callback is a parameter
of `applyOps`). -/
inductive GOp (Item T : Type) where
  | addV (item : Item)
  | addE (a b : VertexId) (t : T)
  | updE (a b : VertexId) (t : T)
  | rmV (v : VertexId)
  | rmE (a b : VertexId)

/-- Apply one traced operation, returning the next state and the vertex ids
issued by the call. -/
def applyOp {Item Weight T : Type} (wf : T → Item → Item → Weight)
    (g : Graph Item Weight) : GOp Item T → Graph Item Weight × List VertexId
  | .addV item =>
      let r := g.add_vertex item
      (r.2, [r.1])
  | .addE a b t => ((g.add_edge a b t wf).2, [])
  | .updE a b t => ((g.create_or_update_edge_between a b t wf).2.1, [])
  | .rmV v => ((g.remove v).2, [])
  | .rmE a b => ((g.remove_edge_between a b).2, [])

/-- Apply a trace left to right, collecting every issued vertex id in
order. -/
def applyOps {Item Weight T : Type} (wf : T → Item → Item → Weight)
    (g : Graph Item Weight) : List (GOp Item T) → Graph Item Weight × List VertexId
  | [] => (g, [])
  | op :: rest =>
      let r := applyOp wf g op
      let r' := applyOps wf r.1 rest
      (r'.1, r.2 ++ r'.2)

/-- The number of `add_vertex` calls in a trace. -/
def countAddV {Item T : Type} : List (GOp Item T) → Nat
  | [] => 0
  | .addV _ :: rest => countAddV rest + 1
  | .addE _ _ _ :: rest => countAddV rest
  | .updE _ _ _ :: rest => countAddV rest
  | .rmV _ :: rest => countAddV rest
  | .rmE _ _ :: rest => countAddV rest

/-! ## Concrete states used by the claim theorems and witnesses -/

/-- The empty graph over `Nat` items and weights. -/
def g0 : Graph Nat Nat := Graph.new

/-- One vertex: id 0 with item 10. -/
def gA : Graph Nat Nat := (g0.add_vertex 10).2

/-- Two vertices: ids 0 (item 10) and 1 (item 20), no edges. -/
def gAB : Graph Nat Nat := (gA.add_vertex 20).2

/-- Two vertices connected by edge 0 of weight 7, created through
`create_or_update_edge_between` (the only operation able to create an edge,
since `add_edge` propagates `adjacent`'s spurious error). -/
def gE : Graph Nat Nat :=
  (gAB.create_or_update_edge_between 0 1 0 (fun _ _ _ => 7)).2.1

/-- A fresh vertex with id 0 for the undirected-variant scenario. -/
def uwFirst : UWVertex Nat Nat := { id := 0, item := 0, edges := [] }

/-- A fresh vertex with id 1 for the undirected-variant scenario. -/
def uwSecond : UWVertex Nat Nat := { id := 1, item := 0, edges := [] }

/-! ## Helper lemmas -/

/-- Updating the value at a key and then looking the key up sees the update
applied to the old value. -/
theorem lookupA_updateA_self {α : Type} (k : Nat) (f : α → α) :
    ∀ l : List (Nat × α), lookupA k (updateA k f l) = (lookupA k l).map f
  | [] => rfl
  | (k', v) :: rest => by
      by_cases h : k = k'
      · simp [updateA, lookupA, h]
      · simp [updateA, lookupA, h, lookupA_updateA_self k f rest]

/-- `add_vertex` advances the vertex-id counter by exactly one. -/
theorem add_vertex_cvi {Item Weight : Type} (g : Graph Item Weight) (x : Item) :
    (g.add_vertex x).2.current_vertex_id = g.current_vertex_id + 1 := rfl

/-- `add_vertex` returns the pre-call value of the vertex-id counter. -/
theorem add_vertex_id {Item Weight : Type} (g : Graph Item Weight) (x : Item) :
    (g.add_vertex x).1 = g.current_vertex_id := rfl

/-- `add_edge` never touches the vertex-id counter. -/
theorem add_edge_cvi {Item Weight T : Type} (g : Graph Item Weight)
    (a b : VertexId) (t : T) (wf : T → Item → Item → Weight) :
    (g.add_edge a b t wf).2.current_vertex_id = g.current_vertex_id := by
  unfold Graph.add_edge
  repeat' first | (split <;> try rfl) | dsimp only

/-- `create_or_update_edge_between` never touches the vertex-id counter. -/
theorem cou_cvi {Item Weight T : Type} (g : Graph Item Weight)
    (a b : VertexId) (t : T) (wf : T → Item → Item → Weight) :
    (g.create_or_update_edge_between a b t wf).2.1.current_vertex_id = g.current_vertex_id := by
  unfold Graph.create_or_update_edge_between
  repeat' first | (split <;> try rfl) | dsimp only

/-- The edge-draining loop of `remove` never touches the vertex-id
counter. -/
theorem removeLoop_cvi {Item Weight : Type} (vid : VertexId) :
    ∀ (keys : List EdgeId) (tr : Vertex Item) (g : Graph Item Weight),
      (Graph.removeLoop vid keys tr g).2.current_vertex_id = g.current_vertex_id := by
  intro keys
  induction keys with
  | nil => intro tr g; rfl
  | cons k rest ih =>
      intro tr g
      unfold Graph.removeLoop
      repeat' first
        | (split <;> try rfl)
        | dsimp only
      all_goals rw [ih]

/-- `remove` never touches the vertex-id counter. -/
theorem remove_cvi {Item Weight : Type} (g : Graph Item Weight) (id : VertexId) :
    (g.remove id).2.current_vertex_id = g.current_vertex_id := by
  unfold Graph.remove
  repeat' first
    | (split <;> try rfl)
    | dsimp only
  all_goals rw [removeLoop_cvi]

/-- `remove_edge_between` never touches the vertex-id counter. -/
theorem rmE_cvi {Item Weight : Type} (g : Graph Item Weight) (a b : VertexId) :
    (g.remove_edge_between a b).2.current_vertex_id = g.current_vertex_id := by
  unfold Graph.remove_edge_between
  repeat' first
    | (split <;> try rfl)
    | dsimp only

/-- Along any clear-free trace, the vertex-id counter grows by exactly the
number of `add_vertex` calls, and the ids issued are the consecutive counter
values starting at the initial counter. -/
theorem applyOps_spec {Item Weight T : Type} (wf : T → Item → Item → Weight) :
    ∀ (ops : List (GOp Item T)) (g : Graph Item Weight),
      (applyOps wf g ops).1.current_vertex_id = g.current_vertex_id + countAddV ops ∧
      (applyOps wf g ops).2 = List.range' g.current_vertex_id (countAddV ops) := by
  intro ops
  induction ops with
  | nil => intro g; exact ⟨rfl, rfl⟩
  | cons op rest ih =>
      intro g
      cases op with
      | addV x =>
          constructor
          · show (applyOps wf (g.add_vertex x).2 rest).1.current_vertex_id = _
            rw [(ih _).1, add_vertex_cvi, countAddV]
            omega
          · show (g.add_vertex x).1 :: (applyOps wf (g.add_vertex x).2 rest).2 = _
            rw [(ih _).2, add_vertex_cvi, add_vertex_id, countAddV, List.range'_succ]
      | addE a b t =>
          refine ⟨?_, ?_⟩
          · show (applyOps wf (g.add_edge a b t wf).2 rest).1.current_vertex_id = _
            rw [(ih _).1, add_edge_cvi, countAddV]
          · show [] ++ (applyOps wf (g.add_edge a b t wf).2 rest).2 = _
            rw [(ih _).2, add_edge_cvi, countAddV, List.nil_append]
      | updE a b t =>
          refine ⟨?_, ?_⟩
          · show (applyOps wf (g.create_or_update_edge_between a b t wf).2.1 rest).1.current_vertex_id = _
            rw [(ih _).1, cou_cvi, countAddV]
          · show [] ++ (applyOps wf (g.create_or_update_edge_between a b t wf).2.1 rest).2 = _
            rw [(ih _).2, cou_cvi, countAddV, List.nil_append]
      | rmV v =>
          refine ⟨?_, ?_⟩
          · show (applyOps wf (g.remove v).2 rest).1.current_vertex_id = _
            rw [(ih _).1, remove_cvi, countAddV]
          · show [] ++ (applyOps wf (g.remove v).2 rest).2 = _
            rw [(ih _).2, remove_cvi, countAddV, List.nil_append]
      | rmE a b =>
          refine ⟨?_, ?_⟩
          · show (applyOps wf (g.remove_edge_between a b).2 rest).1.current_vertex_id = _
            rw [(ih _).1, rmE_cvi, countAddV]
          · show [] ++ (applyOps wf (g.remove_edge_between a b).2 rest).2 = _
            rw [(ih _).2, rmE_cvi, countAddV, List.nil_append]

/-- When the adjacency scan of `create_or_update_edge_between` finds a
shared edge id, the call reduces to: return the found id, write the freshly
computed weight through the allocation referenced by the first vertex's
adjacency entry, evaluate the callback once. -/
theorem create_or_update_found_eq {Item Weight T : Type}
    (g : Graph Item Weight) (a b : VertexId) (t : T)
    (wf : T → Item → Item → Weight) (v1 v2 : Vertex Item) (eId : EdgeId) (addr : Nat)
    (hab : ¬ a = b)
    (h1 : lookupA a g.vertices = some v1)
    (h2 : lookupA b g.vertices = some v2)
    (hscan : v1.edges.find? (fun p => containsA p.1 v2.edges) = some (eId, addr)) :
    g.create_or_update_edge_between a b t wf =
      (.ok eId,
       { g with edgeHeap := updateA addr (fun e => { e with weight := wf t v1.item v2.item }) g.edgeHeap },
       1) := by
  unfold Graph.create_or_update_edge_between
  rw [if_neg hab, h1]
  dsimp only
  rw [h2]
  dsimp only
  rw [hscan]

/-! ## Claim theorems -/

/-- Claim C1.  The claim states that `adjacent(id_one, id_two)` returns
`Ok(true)` when the two registered vertices' adjacency maps share a key,
`Ok(false)` when they do not, and `Err(VertexNotFound)` only when one of the
ids is absent from the registry.  The code contradicts this (and its own doc
comment): in the graph with vertices 0 and 1 registered and both adjacency
maps empty — so no shared key — `adjacent 0 1` returns
`Err(VertexNotFound(1))` instead of `Ok(false)`, because the function's only
success exit is the `Ok(true)` inside the scan and every other path falls
through to the error. -/
theorem claim_C1_code_bug :
    lookupA 0 gAB.vertices = some { id := 0, item := 10, edges := [] } ∧
    lookupA 1 gAB.vertices = some { id := 1, item := 20, edges := [] } ∧
    gAB.adjacent 0 1 = .error (.VertexNotFound 1) :=
  ⟨rfl, rfl, rfl⟩

/-- Claim C2.  The claim states that `add_edge(a, b, ...)` on two distinct,
registered, not-yet-connected vertices returns `Ok` with a new edge id and
makes the endpoints adjacent.  The code cannot do this for any weight
callback: `add_edge` propagates `adjacent`'s result with `?`, and since
`adjacent` never returns `Ok(false)` (claim C1), the construction path is
unreachable — on the two-vertex edgeless graph every `add_edge 0 1` call
returns `Err(VertexNotFound(1))` and creates nothing, contradicting the
repository's own tests which unwrap successful `add_edge` calls. -/
theorem claim_C2_code_bug :
    lookupA 0 gAB.vertices = some { id := 0, item := 10, edges := [] } ∧
    lookupA 1 gAB.vertices = some { id := 1, item := 20, edges := [] } ∧
    ∀ (t : Nat) (wf : Nat → Nat → Nat → Nat),
      (gAB.add_edge 0 1 t wf).1 = .error (.VertexNotFound 1) ∧
      (gAB.add_edge 0 1 t wf).2.vertices = gAB.vertices ∧
      (gAB.add_edge 0 1 t wf).2.edge_len = gAB.edge_len :=
  ⟨rfl, rfl, fun _ _ => ⟨rfl, rfl, rfl⟩⟩

/-- Claim C3.  The claim states that `remove(v)` with `v` absent returns
`Err(VertexNotFound(v))` and leaves the whole graph state unchanged.  The
code decrements `vertex_len` before validating: on the one-vertex graph,
`remove 5` does return the error, but `vertex_len` has dropped from 1 to 0
while the registry still holds its one vertex — the failed call leaves
partially-applied state. -/
theorem claim_C3_code_bug :
    (gA.remove 5).1 = .err (.VertexNotFound 5) ∧
    gA.vertex_len = 1 ∧
    (gA.remove 5).2.vertex_len = 0 ∧
    (gA.remove 5).2.vertices = gA.vertices ∧
    (gA.remove 5).2.vertices.length = 1 :=
  ⟨rfl, rfl, rfl, rfl, rfl⟩

/-- Claim C4 (confirmed).  On the update path of
`create_or_update_edge_between` — distinct registered vertices whose
adjacency scan finds a shared edge id, the entry present on both sides and
referencing a live allocation — the call returns the existing edge's id,
evaluates the weight callback exactly once, and writes the resulting weight
through the shared allocation, so reading the weight through either
endpoint's adjacency entry yields the new value. -/
theorem claim_C4_update_single_eval_shared_write {Item Weight T : Type}
    (g : Graph Item Weight) (a b : VertexId) (t : T)
    (wf : T → Item → Item → Weight) (v1 v2 : Vertex Item) (eId : EdgeId) (addr : Nat)
    (e : EdgeAlloc Weight)
    (hab : ¬ a = b)
    (h1 : lookupA a g.vertices = some v1)
    (h2 : lookupA b g.vertices = some v2)
    (hscan : v1.edges.find? (fun p => containsA p.1 v2.edges) = some (eId, addr))
    (h1e : lookupA eId v1.edges = some addr)
    (h2e : lookupA eId v2.edges = some addr)
    (hheap : lookupA addr g.edgeHeap = some e) :
    (g.create_or_update_edge_between a b t wf).1 = .ok eId ∧
    (g.create_or_update_edge_between a b t wf).2.2 = 1 ∧
    readWeightVia (g.create_or_update_edge_between a b t wf).2.1 a eId = some (wf t v1.item v2.item) ∧
    readWeightVia (g.create_or_update_edge_between a b t wf).2.1 b eId = some (wf t v1.item v2.item) := by
  rw [create_or_update_found_eq g a b t wf v1 v2 eId addr hab h1 h2 hscan]
  refine ⟨rfl, rfl, ?_, ?_⟩
  · unfold readWeightVia
    rw [show ({ g with edgeHeap := updateA addr (fun e => { e with weight := wf t v1.item v2.item }) g.edgeHeap } : Graph Item Weight).vertices = g.vertices from rfl, h1]
    dsimp only
    rw [h1e]
    dsimp only
    rw [lookupA_updateA_self, hheap]
    rfl
  · unfold readWeightVia
    rw [show ({ g with edgeHeap := updateA addr (fun e => { e with weight := wf t v1.item v2.item }) g.edgeHeap } : Graph Item Weight).vertices = g.vertices from rfl, h2]
    dsimp only
    rw [h2e]
    dsimp only
    rw [lookupA_updateA_self, hheap]
    rfl

/-- Claim C4's theorem applied on the concrete connected two-vertex graph
`gE`: updating the weight of the existing edge 0 to 9 succeeds, evaluates
the callback once, and both endpoints read 9 afterwards. -/
theorem claim_C4_witness :
    (gE.create_or_update_edge_between 0 1 0 (fun _ _ _ => 9)).1 = .ok 0 ∧
    (gE.create_or_update_edge_between 0 1 0 (fun _ _ _ => 9)).2.2 = 1 ∧
    readWeightVia (gE.create_or_update_edge_between 0 1 0 (fun _ _ _ => 9)).2.1 0 0 = some 9 ∧
    readWeightVia (gE.create_or_update_edge_between 0 1 0 (fun _ _ _ => 9)).2.1 1 0 = some 9 :=
  claim_C4_update_single_eval_shared_write gE 0 1 0 (fun _ _ _ => 9)
    { id := 0, item := 10, edges := [(0, 0)] } { id := 1, item := 20, edges := [(0, 0)] }
    0 0 { weight := 7, fst := 0, snd := 1 }
    (by decide) rfl rfl rfl rfl rfl rfl

/-- Claim C5.  The claim states that every successfully constructed edge
appears in both endpoints' adjacency maps as the same allocation — mutating
the weight through one endpoint's entry is observable through the other —
for every built-in edge variant.  `UnDirectedWeightedEdge::add_edge`
contradicts this: it inserts `edge.clone()` into the first endpoint's map
and `edge` into the second's, two independent copies of the weight (the
impl also no longer matches the `EdgeTrait` declaration in
`src/edge/mod.rs`).  Concretely: construct edge 0 of weight 3 between
`uwFirst` and `uwSecond`, write 5 through the first endpoint's entry — the
first endpoint reads 5, the second still reads the stale 3. -/
theorem claim_C5_code_bug :
    (((UnDirectedWeightedEdge.add_edge 3 uwFirst uwSecond 0).1.setWeightAt 0 5).weightAt 0
        = some 5) ∧
    ((UnDirectedWeightedEdge.add_edge 3 uwFirst uwSecond 0).2.weightAt 0 = some 3) :=
  ⟨rfl, rfl⟩

/-- Claim C6.  The claim states that after every graph operation
`vertex_len`/`edge_len` equal the registry sizes.  The code contradicts it:
`remove_edge_between` (like the drain loop of `remove`) removes the edge
from the registry but never decrements `edge_len`.  On the connected
two-vertex graph `gE` (one edge, `edge_len = 1`), `remove_edge_between 0 1`
succeeds, empties the edge registry and the heap, yet leaves
`edge_len = 1`. -/
theorem claim_C6_code_bug :
    (gE.remove_edge_between 0 1).1 = .ok () ∧
    gE.edge_len = 1 ∧ gE.edges.length = 1 ∧
    (gE.remove_edge_between 0 1).2.edges = [] ∧
    (gE.remove_edge_between 0 1).2.edge_len = 1 :=
  ⟨rfl, rfl, rfl, rfl, rfl⟩

/-- Claim C7, counterexample.  The claim states that no later `add_vertex`
ever returns an id issued before, across any sequence of operations on the
same graph instance.  `clear` resets `current_vertex_id` to 0, so after
`add_vertex; clear` the next `add_vertex` returns 0 — an id that was already
issued by the first call. -/
theorem claim_C7_counterexample :
    (g0.add_vertex 0).1 = 0 ∧ ((g0.add_vertex 0).2.clear.add_vertex 0).1 = 0 :=
  ⟨rfl, rfl⟩

/-- Claim C7 as amended: across every sequence of
`add_vertex`/`add_edge`/`create_or_update_edge_between`/`remove`/
`remove_edge_between` operations on a fresh graph — i.e. any sequence not
containing `clear`, which resets the counter — the vertex ids issued are
exactly 0, 1, 2, ... in order: unique, monotonically increasing from 0, and
never reused (in particular, after issuing 0, 1, 2 and removing 1, the next
id is 3). -/
theorem claim_C7_amended {Item Weight T : Type} (wf : T → Item → Item → Weight)
    (ops : List (GOp Item T)) :
    (applyOps wf (Graph.new : Graph Item Weight) ops).2 = List.range (countAddV ops) := by
  rw [(applyOps_spec wf ops Graph.new).2, List.range_eq_range']
  rfl

/-- Claim C8, counterexample.  The claim states that `add_edge` and
`create_or_update_edge_between` either both advance the edge-id counter on
failure or neither does.  On the one-vertex graph `gA`, `add_edge 0 0`
fails with `IdenticalVertex` and advances the counter from 0 to 1, while
`create_or_update_edge_between 0 0` fails with the same error and leaves
the counter at 0. -/
theorem claim_C8_counterexample :
    (gA.add_edge 0 0 0 (fun _ _ _ => 5)).1 = .error (.IdenticalVertex 0) ∧
    (gA.add_edge 0 0 0 (fun _ _ _ => 5)).2.current_edge_id = gA.current_edge_id + 1 ∧
    (gA.create_or_update_edge_between 0 0 0 (fun _ _ _ => 5)).1 = .error (.IdenticalVertex 0) ∧
    (gA.create_or_update_edge_between 0 0 0 (fun _ _ _ => 5)).2.1.current_edge_id
      = gA.current_edge_id :=
  ⟨rfl, rfl, rfl, rfl⟩

/-- Claim C8 as amended: the two operations have fixed but different
policies.  `add_edge` draws a fresh id before validating, so it advances
the edge-id counter by one on every call, including every failing one;
`create_or_update_edge_between` draws an id only on its creation path, so
every failing call leaves the counter unchanged. -/
theorem claim_C8_amended {Item Weight T : Type} (g : Graph Item Weight)
    (a b : VertexId) (t t' : T) (wf wf' : T → Item → Item → Weight) :
    (g.add_edge a b t wf).2.current_edge_id = g.current_edge_id + 1 ∧
    (∀ e, (g.create_or_update_edge_between a b t' wf').1 = .error e →
      (g.create_or_update_edge_between a b t' wf').2.1.current_edge_id = g.current_edge_id) := by
  constructor
  · unfold Graph.add_edge
    repeat' first | (split <;> try rfl) | dsimp only
  · intro e
    unfold Graph.create_or_update_edge_between
    repeat' first | dsimp only | split
    all_goals intro he
    all_goals first | rfl | (exact absurd he (by simp))

/-- Claim C8's amended theorem applied on the one-vertex graph `gA` with
the failing calls of the counterexample. -/
theorem claim_C8_witness :
    (gA.add_edge 0 0 0 (fun _ _ _ => 5)).2.current_edge_id = gA.current_edge_id + 1 ∧
    (gA.create_or_update_edge_between 0 0 0 (fun _ _ _ => 5)).2.1.current_edge_id
      = gA.current_edge_id :=
  ⟨(claim_C8_amended gA 0 0 0 0 (fun _ _ _ => 5) (fun _ _ _ => 5)).1,
   (claim_C8_amended gA 0 0 0 0 (fun _ _ _ => 5) (fun _ _ _ => 5)).2
     (.IdenticalVertex 0) rfl⟩

/-- Claim C9.  The claim states that `remove(v)` with `v` absent always
returns `Err(VertexNotFound(v))` without any arithmetic underflow or other
fault, on every graph state including the empty graph.  The code
contradicts it: its first statement is `self.vertex_len -= 1`, so on the
empty graph (for any absent id) the `usize` subtraction underflows — a
panic under the debug-build overflow check — instead of returning the
error. -/
theorem claim_C9_code_bug {Item Weight : Type} (id : VertexId) :
    ((Graph.new : Graph Item Weight).remove id).1 = .panicked :=
  rfl

/-- Claim C10 (confirmed).  On the update path of
`create_or_update_edge_between` — distinct registered vertices whose
adjacency scan finds a shared edge id — everything except the edge's weight
is unchanged: the vertex registry (hence both endpoints' adjacency maps),
the edge registry, the edge-id counter and `edge_len` are identical before
and after the call, and the returned id is the pre-existing edge's. -/
theorem claim_C10_update_frame {Item Weight T : Type}
    (g : Graph Item Weight) (a b : VertexId) (t : T)
    (wf : T → Item → Item → Weight) (v1 v2 : Vertex Item) (eId : EdgeId) (addr : Nat)
    (hab : ¬ a = b)
    (h1 : lookupA a g.vertices = some v1)
    (h2 : lookupA b g.vertices = some v2)
    (hscan : v1.edges.find? (fun p => containsA p.1 v2.edges) = some (eId, addr)) :
    (g.create_or_update_edge_between a b t wf).1 = .ok eId ∧
    (g.create_or_update_edge_between a b t wf).2.1.vertices = g.vertices ∧
    (g.create_or_update_edge_between a b t wf).2.1.edges = g.edges ∧
    (g.create_or_update_edge_between a b t wf).2.1.current_edge_id = g.current_edge_id ∧
    (g.create_or_update_edge_between a b t wf).2.1.edge_len = g.edge_len := by
  rw [create_or_update_found_eq g a b t wf v1 v2 eId addr hab h1 h2 hscan]
  exact ⟨rfl, rfl, rfl, rfl, rfl⟩

/-- Claim C10's theorem applied on the concrete connected two-vertex graph
`gE`. -/
theorem claim_C10_witness :
    (gE.create_or_update_edge_between 0 1 0 (fun _ _ _ => 9)).1 = .ok 0 ∧
    (gE.create_or_update_edge_between 0 1 0 (fun _ _ _ => 9)).2.1.vertices = gE.vertices ∧
    (gE.create_or_update_edge_between 0 1 0 (fun _ _ _ => 9)).2.1.edges = gE.edges ∧
    (gE.create_or_update_edge_between 0 1 0 (fun _ _ _ => 9)).2.1.current_edge_id
      = gE.current_edge_id ∧
    (gE.create_or_update_edge_between 0 1 0 (fun _ _ _ => 9)).2.1.edge_len = gE.edge_len :=
  claim_C10_update_frame gE 0 1 0 (fun _ _ _ => 9)
    { id := 0, item := 10, edges := [(0, 0)] } { id := 1, item := 20, edges := [(0, 0)] }
    0 0 (by decide) rfl rfl rfl
